import Mathlib

/-
  Verification development for the Arize tracing demo repository.

  Shallow embedding of the Python sources:
    - weather_tool.py : get_weather and the static weather table
    - llm_agent.py    : LLMAgent._execute_tool_call, LLMAgent.chat
    - main.py         : setup_environment, main

  Modelling conventions:
    - `json.loads` is modelled by an executable fuel-indexed JSON reader
      (`json_loads`) matching Python's default acceptance (including the
      NaN/Infinity constants, strict rejection of raw control characters in
      strings, last-key-wins objects).  Lone surrogate escapes, which Lean
      strings cannot represent, are mapped to U+FFFD; no claim touches them.
    - `json.dumps(..., indent=2)` on the flat string-valued weather records is
      modelled by `dumps_indent2` with Python's default `ensure_ascii` escaping.
    - `str.lower()` is modelled by ASCII lowering (`pyLower`); `str.strip()` by
      `pyStrip` over the standard Python whitespace set.
    - Exceptions are modelled with `Except PyError`; the nondeterministic
      OpenAI backend is an explicit oracle (`ChatOracle`).
    - Tracing: `tracer.start_as_current_span` used as a `with` context manager
      opens a span on entry and always closes it on exit, recording whether the
      body raised (OpenTelemetry records the exception and re-raises).  The
      execution of each function yields a flat event trace of span opens and
      closes; only spans opened by repository code are modelled (spans emitted
      internally by the OpenAI auto-instrumentation library are out of scope,
      as are span attributes that no claim mentions).
-/

namespace AgentDemo

/-! ## JSON values and `json.loads` -/

inductive Json where
  | jnull : Json
  | jbool (b : Bool) : Json
  | jnum (raw : String) : Json
  | jstr (s : String) : Json
  | jarr (elems : List Json) : Json
  | jobj (fields : List (String × Json)) : Json

def lbraceChar : Char := Char.ofNat 123

def rbraceChar : Char := Char.ofNat 125

/-- JSON insignificant whitespace (also Python's json): space, tab, LF, CR. -/
def skipWs : List Char → List Char
  | [] => []
  | c :: rest =>
    if c = ' ' || c = '\t' || c = '\n' || c = '\r' then skipWs rest else c :: rest

def hexDigitVal (c : Char) : Option Nat :=
  if '0' ≤ c && c ≤ '9' then some (c.toNat - 48)
  else if 'a' ≤ c && c ≤ 'f' then some (c.toNat - 87)
  else if 'A' ≤ c && c ≤ 'F' then some (c.toNat - 55)
  else none

def parseHex4 : List Char → Option (Nat × List Char)
  | a :: b :: c :: d :: rest =>
    match hexDigitVal a, hexDigitVal b, hexDigitVal c, hexDigitVal d with
    | some va, some vb, some vc, some vd =>
      some (va * 4096 + vb * 256 + vc * 16 + vd, rest)
    | _, _, _, _ => none
  | _ => none

/-- Reads the body of a JSON string literal (after the opening quote), with the
escape handling of Python's json module in strict mode: raw control characters
below 0x20 are rejected, the standard escapes and surrogate-paired u-escapes are
decoded; a lone surrogate becomes U+FFFD (model choice, see header). -/
def lexStr : Nat → List Char → List Char → Option (String × List Char)
  | 0, _, _ => none
  | _ + 1, [], _ => none
  | fuel + 1, c :: rest, acc =>
    if c = '"' then some (String.mk acc.reverse, rest)
    else if c = '\\' then
      match rest with
      | [] => none
      | e :: rest2 =>
        if e = '"' then lexStr fuel rest2 ('"' :: acc)
        else if e = '\\' then lexStr fuel rest2 ('\\' :: acc)
        else if e = '/' then lexStr fuel rest2 ('/' :: acc)
        else if e = 'b' then lexStr fuel rest2 (Char.ofNat 8 :: acc)
        else if e = 'f' then lexStr fuel rest2 (Char.ofNat 12 :: acc)
        else if e = 'n' then lexStr fuel rest2 ('\n' :: acc)
        else if e = 'r' then lexStr fuel rest2 ('\r' :: acc)
        else if e = 't' then lexStr fuel rest2 ('\t' :: acc)
        else if e = 'u' then
          match parseHex4 rest2 with
          | none => none
          | some (n, rest3) =>
            if 55296 ≤ n && n ≤ 56319 then
              match rest3 with
              | b1 :: b2 :: rest4 =>
                if b1 = '\\' && b2 = 'u' then
                  match parseHex4 rest4 with
                  | some (n2, rest5) =>
                    if 56320 ≤ n2 && n2 ≤ 57343 then
                      lexStr fuel rest5
                        (Char.ofNat (65536 + (n - 55296) * 1024 + (n2 - 56320)) :: acc)
                    else lexStr fuel rest3 (Char.ofNat 65533 :: acc)
                  | none => lexStr fuel rest3 (Char.ofNat 65533 :: acc)
                else lexStr fuel rest3 (Char.ofNat 65533 :: acc)
              | _ => lexStr fuel rest3 (Char.ofNat 65533 :: acc)
            else if 56320 ≤ n && n ≤ 57343 then
              lexStr fuel rest3 (Char.ofNat 65533 :: acc)
            else lexStr fuel rest3 (Char.ofNat n :: acc)
        else none
    else if c.toNat < 32 then none
    else lexStr fuel rest (c :: acc)

def takeDigits : List Char → List Char × List Char
  | [] => ([], [])
  | c :: rest =>
    if c.isDigit then
      match takeDigits rest with
      | (ds, r) => (c :: ds, r)
    else ([], c :: rest)

def lexFrac (cs : List Char) : List Char × List Char :=
  match cs with
  | c :: r =>
    if c = '.' then
      match takeDigits r with
      | ([], _) => ([], cs)
      | (ds, rest) => ('.' :: ds, rest)
    else ([], cs)
  | [] => ([], [])

def lexExp (cs : List Char) : List Char × List Char :=
  match cs with
  | c :: r =>
    if c = 'e' || c = 'E' then
      let signRest : List Char × List Char :=
        match r with
        | s :: r3 => if s = '+' || s = '-' then ([s], r3) else ([], s :: r3)
        | [] => ([], [])
      match takeDigits signRest.2 with
      | ([], _) => ([], cs)
      | (ds, rest) => (c :: (signRest.1 ++ ds), rest)
    else ([], cs)
  | [] => ([], [])

/-- Reads a JSON number token, keeping its raw text (the numeric value is
irrelevant to every claim, so floating point is never materialised). -/
def lexNumber (cs : List Char) : Option (String × List Char) :=
  let signRest : List Char × List Char :=
    match cs with
    | c :: r => if c = '-' then (['-'], r) else ([], cs)
    | [] => ([], [])
  match signRest.2 with
  | c :: r =>
    if c = '0' then
      let fr := lexFrac r
      let ex := lexExp fr.2
      some (String.mk (signRest.1 ++ ['0'] ++ fr.1 ++ ex.1), ex.2)
    else if c.isDigit then
      match takeDigits (c :: r) with
      | (ds, rest0) =>
        let fr := lexFrac rest0
        let ex := lexExp fr.2
        some (String.mk (signRest.1 ++ ds ++ fr.1 ++ ex.1), ex.2)
    else none
  | [] => none

inductive PMode where
  | value : PMode
  | arrElems (acc : List Json) : PMode
  | objFields (acc : List (String × Json)) : PMode

/-- Fuel-indexed JSON reader.  `PMode.value` reads one value, the other modes
read the remaining elements of an array or object.  Each recursive call burns
one fuel unit and at most two calls happen per input character, so
`2 * length + 2` fuel at the top level never runs out. -/
def parseF : Nat → PMode → List Char → Option (Json × List Char)
  | 0, _, _ => none
  | fuel + 1, PMode.value, cs0 =>
    match skipWs cs0 with
    | 'n' :: 'u' :: 'l' :: 'l' :: r => some (Json.jnull, r)
    | 't' :: 'r' :: 'u' :: 'e' :: r => some (Json.jbool true, r)
    | 'f' :: 'a' :: 'l' :: 's' :: 'e' :: r => some (Json.jbool false, r)
    | 'N' :: 'a' :: 'N' :: r => some (Json.jnum "NaN", r)
    | 'I' :: 'n' :: 'f' :: 'i' :: 'n' :: 'i' :: 't' :: 'y' :: r =>
      some (Json.jnum "Infinity", r)
    | '-' :: 'I' :: 'n' :: 'f' :: 'i' :: 'n' :: 'i' :: 't' :: 'y' :: r =>
      some (Json.jnum "-Infinity", r)
    | '"' :: r =>
      (match lexStr (r.length + 1) r [] with
       | some (s, rest) => some (Json.jstr s, rest)
       | none => none)
    | '[' :: r =>
      (match skipWs r with
       | ']' :: r2 => some (Json.jarr [], r2)
       | r2 => parseF fuel (PMode.arrElems []) r2)
    | c :: r =>
      if c = lbraceChar then
        (match skipWs r with
         | [] => none
         | c2 :: r2 =>
           if c2 = rbraceChar then some (Json.jobj [], r2)
           else parseF fuel (PMode.objFields []) (c2 :: r2))
      else if c = '-' || c.isDigit then
        (match lexNumber (c :: r) with
         | some (nstr, rest) => some (Json.jnum nstr, rest)
         | none => none)
      else none
    | [] => none
  | fuel + 1, PMode.arrElems acc, cs =>
    match parseF fuel PMode.value cs with
    | none => none
    | some (v, rest) =>
      match skipWs rest with
      | ',' :: r2 => parseF fuel (PMode.arrElems (v :: acc)) r2
      | ']' :: r2 => some (Json.jarr (v :: acc).reverse, r2)
      | _ => none
  | fuel + 1, PMode.objFields acc, cs =>
    match skipWs cs with
    | '"' :: r =>
      (match lexStr (r.length + 1) r [] with
       | none => none
       | some (k, rest) =>
         match skipWs rest with
         | ':' :: r2 =>
           (match parseF fuel PMode.value r2 with
            | none => none
            | some (v, rest2) =>
              match skipWs rest2 with
              | ',' :: r3 => parseF fuel (PMode.objFields ((k, v) :: acc)) r3
              | c :: r3 =>
                if c = rbraceChar then some (Json.jobj ((k, v) :: acc).reverse, r3)
                else none
              | [] => none)
         | _ => none)
    | _ => none

/-- Model of Python `json.loads` on the tool-call argument text: reads one JSON
document and rejects trailing non-whitespace, returning `none` exactly where
Python raises `json.JSONDecodeError`. -/
def json_loads (s : String) : Option Json :=
  match parseF (2 * s.length + 2) PMode.value s.data with
  | some (v, rest) => if (skipWs rest).isEmpty then some v else none
  | none => none

/-- Last-occurrence lookup in a decoded object, matching Python's dict built in
document order where later duplicate keys overwrite earlier ones. -/
def objGet (fields : List (String × Json)) (k : String) : Option Json :=
  match fields with
  | [] => none
  | (k2, v) :: rest =>
    match objGet rest k with
    | some v2 => some v2
    | none => if k2 = k then some v else none

/-! ## `json.dumps(..., indent=2)` on flat string-valued records -/

def hexDigitChar (n : Nat) : Char :=
  if n < 10 then Char.ofNat (48 + n) else Char.ofNat (87 + n)

def hex4 (n : Nat) : String :=
  String.mk [hexDigitChar (n / 4096 % 16), hexDigitChar (n / 256 % 16),
             hexDigitChar (n / 16 % 16), hexDigitChar (n % 16)]

/-- Python `json.dumps` character escaping with the default `ensure_ascii`:
everything outside 0x20..0x7e is escaped, with the shorthand escapes for the
usual control characters and surrogate pairs above U+FFFF. -/
def pyEscapeChar (c : Char) : List Char :=
  if c = '"' then ['\\', '"']
  else if c = '\\' then ['\\', '\\']
  else if c = '\n' then ['\\', 'n']
  else if c = '\r' then ['\\', 'r']
  else if c = '\t' then ['\\', 't']
  else if c.toNat = 8 then ['\\', 'b']
  else if c.toNat = 12 then ['\\', 'f']
  else if 32 ≤ c.toNat && c.toNat ≤ 126 then [c]
  else if c.toNat < 65536 then '\\' :: 'u' :: (hex4 c.toNat).data
  else
    ('\\' :: 'u' :: (hex4 (55296 + (c.toNat - 65536) / 1024)).data) ++
    ('\\' :: 'u' :: (hex4 (56320 + (c.toNat - 65536) % 1024)).data)

def pyJsonStr (s : String) : String :=
  String.mk ('"' :: s.data.foldr (fun c acc => pyEscapeChar c ++ acc) ['"'])

/-- Rendering of `json.dumps(record, indent=2)` for a dict of string values in
insertion order (the only shape the weather tool serialises). -/
def dumps_indent2 (fields : List (String × String)) : String :=
  match fields with
  | [] => String.mk [lbraceChar, rbraceChar]
  | _ =>
    String.mk [lbraceChar, '\n'] ++
    String.intercalate ",\n"
      (fields.map (fun kv => "  " ++ pyJsonStr kv.1 ++ ": " ++ pyJsonStr kv.2)) ++
    "\n" ++ String.mk [rbraceChar]

/-! ## Python string normalisation used by get_weather -/

/-- Python `str.isspace` characters (the set `str.strip()` removes). -/
def pyIsSpace (c : Char) : Bool :=
  c = ' ' || c = '\t' || c = '\n' || c = '\r' || c.toNat = 11 || c.toNat = 12 ||
  c.toNat = 133 || c.toNat = 160 || c.toNat = 5760 ||
  (8192 ≤ c.toNat && c.toNat ≤ 8202) ||
  c.toNat = 8232 || c.toNat = 8233 || c.toNat = 8239 || c.toNat = 8287 ||
  c.toNat = 12288

def pyStrip (s : String) : String :=
  String.mk (((s.data.dropWhile pyIsSpace).reverse.dropWhile pyIsSpace).reverse)

/-- Model of Python `str.lower` restricted to ASCII case mapping (the static
table keys are ASCII; exotic Unicode case foldings are outside the model). -/
def pyLower (s : String) : String :=
  String.mk (s.data.map Char.toLower)

/-! ## Span/trace model -/

inductive SpanKind where
  | AGENT : SpanKind
  | LLM : SpanKind
  | TOOL : SpanKind
deriving DecidableEq, Repr

/-- One tracing event: a span being opened, or being closed.  The close event
records whether the wrapped body raised (OpenTelemetry's context manager
records the exception on the span before ending it and re-raising). -/
inductive SpanEvent where
  | openSpan (name : String) (kind : SpanKind) : SpanEvent
  | closeSpan (name : String) (errored : Bool) : SpanEvent
deriving DecidableEq, Repr

abbrev Trace := List SpanEvent

/-- Python exceptions that the repository's code paths can raise. -/
inductive PyError where
  | apiError (msg : String) : PyError
  | jsonDecodeError : PyError
  | keyError (key : String) : PyError
  | typeError : PyError
  | attributeError : PyError
  | openaiError : PyError
deriving DecidableEq, Repr

def isErr {α : Type} : Except PyError α → Bool
  | Except.error _ => true
  | Except.ok _ => false

/-- Semantics of `with tracer.start_as_current_span(name, ...) as span:` around
a body that yields a result and its own trace: the span is opened before the
body and closed after it on every exit path, normal or raising, with the
failure recorded on the close. -/
def withSpan {α : Type} (name : String) (kind : SpanKind)
    (body : Except PyError α × Trace) : Except PyError α × Trace :=
  (body.1, SpanEvent.openSpan name kind :: (body.2 ++ [SpanEvent.closeSpan name (isErr body.1)]))

def spanOpens (t : Trace) : Nat :=
  t.countP fun e => match e with | SpanEvent.openSpan _ _ => true | _ => false

def spanCloses (t : Trace) : Nat :=
  t.countP fun e => match e with | SpanEvent.closeSpan _ _ => true | _ => false

/-! ## weather_tool.py -/

structure WeatherRecord where
  location : String
  temperature : String
  condition : String
  humidity : String
  wind : String
  forecast : String
deriving DecidableEq, Repr

/-- The hardcoded `weather_data` dict of `get_weather`, in source order. -/
def weather_data : List (String × WeatherRecord) :=
  [("san francisco",
    { location := "San Francisco, CA"
      temperature := "68°F (20°C)"
      condition := "Partly cloudy"
      humidity := "65%"
      wind := "12 mph NW"
      forecast := "Mild and pleasant with some clouds" }),
   ("new york",
    { location := "New York, NY"
      temperature := "72°F (22°C)"
      condition := "Sunny"
      humidity := "58%"
      wind := "8 mph SW"
      forecast := "Clear skies and comfortable temperatures" }),
   ("london",
    { location := "London, UK"
      temperature := "59°F (15°C)"
      condition := "Light rain"
      humidity := "78%"
      wind := "15 mph W"
      forecast := "Typical London weather with light showers" }),
   ("tokyo",
    { location := "Tokyo, Japan"
      temperature := "75°F (24°C)"
      condition := "Clear"
      humidity := "62%"
      wind := "6 mph E"
      forecast := "Beautiful clear day with mild temperatures" })]

/-- First-match association lookup (the dict keys are distinct, so this equals
Python's dict membership test plus indexing). -/
def tableGet (table : List (String × WeatherRecord)) (key : String) : Option WeatherRecord :=
  match table with
  | [] => none
  | (k, v) :: rest => if k = key then some v else tableGet rest key

/-- The dict insertion order of the record fields, as serialised by
`json.dumps(..., indent=2)` in `get_weather`. -/
def weatherRecordFields (r : WeatherRecord) : List (String × String) :=
  [("location", r.location), ("temperature", r.temperature),
   ("condition", r.condition), ("humidity", r.humidity),
   ("wind", r.wind), ("forecast", r.forecast)]

/-- The fallback record `get_weather` synthesises for unknown locations. -/
def fallbackRecord (location : String) : WeatherRecord :=
  { location := location
    temperature := "72°F (22°C)"
    condition := "Unknown"
    humidity := "60%"
    wind := "10 mph"
    forecast := "Weather data not available for " ++ location ++ ", but it's probably nice!" }

/-- weather_tool.get_weather.  Its body raises no exception (string
normalisation, dict lookup and serialisation of string dicts are total), so the
result is a plain string paired with the trace of the one span it opens and
closes around the lookup. -/
def get_weather (location : String) : String × Trace :=
  let location_key := pyStrip (pyLower location)
  let result :=
    match tableGet weather_data location_key with
    | some r => dumps_indent2 (weatherRecordFields r)
    | none => dumps_indent2 (weatherRecordFields (fallbackRecord location))
  (result,
   [SpanEvent.openSpan "Weather Tool Execution" SpanKind.TOOL,
    SpanEvent.closeSpan "Weather Tool Execution" false])

/-! ## llm_agent.py -/

structure ToolFunction where
  name : String
  arguments : String
deriving DecidableEq, Repr

structure ToolCall where
  id : String
  function : ToolFunction
deriving DecidableEq, Repr

/-- Python `function_args["location"]`-style subscripting of a decoded JSON
value: `KeyError` on a dict without the key, `TypeError` on a non-dict. -/
def pyIndex (j : Json) (k : String) : Except PyError Json :=
  match j with
  | Json.jobj fields =>
    (match objGet fields k with
     | some v => Except.ok v
     | none => Except.error (PyError.keyError k))
  | _ => Except.error PyError.typeError

/-- Body of `LLMAgent._execute_tool_call` inside its `with` span block:
`json.loads` the raw arguments, then either run `get_weather` on
`function_args["location"]` or return the unknown-function sentinel.  A
non-string `location` value would hit `location.lower()` and raise
`AttributeError`. -/
def execute_body (tc : ToolCall) : Except PyError String × Trace :=
  match json_loads tc.function.arguments with
  | none => (Except.error PyError.jsonDecodeError, [])
  | some function_args =>
    if tc.function.name = "get_weather" then
      match pyIndex function_args "location" with
      | Except.error e => (Except.error e, [])
      | Except.ok (Json.jstr location) =>
        (Except.ok (get_weather location).1, (get_weather location).2)
      | Except.ok _ => (Except.error PyError.attributeError, [])
    else (Except.ok ("Unknown function: " ++ tc.function.name), [])

/-- LLMAgent._execute_tool_call: the body above wrapped in the
`Tool: {name}` TOOL span. -/
def execute_tool_call (tc : ToolCall) : Except PyError String × Trace :=
  withSpan ("Tool: " ++ tc.function.name) SpanKind.TOOL (execute_body tc)

/-- The assistant message of an OpenAI chat completion, as `chat` reads it:
`content` plus the (possibly empty, standing for absent) tool-call list. -/
structure AssistantMessage where
  content : String
  tool_calls : List ToolCall
deriving DecidableEq, Repr

/-- Outcome of one call to the external OpenAI backend: a response, or a
raised exception carrying its message. -/
inductive ApiResult (α : Type) where
  | ok (response : α) : ApiResult α
  | raise (msg : String) : ApiResult α
deriving DecidableEq, Repr

/-- Oracle fixing the behaviour of the (at most two) backend calls of one
turn; `chat` itself is deterministic given this oracle. -/
structure ChatOracle where
  initialResponse : ApiResult AssistantMessage
  finalResponse : ApiResult String
deriving DecidableEq, Repr

def llmCallInitial (o : ChatOracle) : Except PyError AssistantMessage × Trace :=
  withSpan "LLM Call - Initial" SpanKind.LLM
    (match o.initialResponse with
     | ApiResult.raise m => (Except.error (PyError.apiError m), [])
     | ApiResult.ok am => (Except.ok am, []))

def llmCallFinal (o : ChatOracle) : Except PyError String × Trace :=
  withSpan "LLM Call - Final" SpanKind.LLM
    (match o.finalResponse with
     | ApiResult.raise m => (Except.error (PyError.apiError m), [])
     | ApiResult.ok content => (Except.ok content, []))

/-- The tool-dispatch loop of `chat`: each tool call is executed in order; after
each call the result is re-parsed by the progress print
(`json.loads(tool_result)['location']`), which raises on the unknown-function
sentinel or a result without a `location` key.  The first exception aborts the
loop (no `except` anywhere in `chat`). -/
def runToolCalls : List ToolCall → Except PyError Unit × Trace
  | [] => (Except.ok (), [])
  | tc :: rest =>
    match execute_tool_call tc with
    | (Except.error e, t) => (Except.error e, t)
    | (Except.ok tool_result, t) =>
      match json_loads tool_result with
      | none => (Except.error PyError.jsonDecodeError, t)
      | some j =>
        match pyIndex j "location" with
        | Except.error e => (Except.error e, t)
        | Except.ok _ =>
          match runToolCalls rest with
          | (r, t2) => (r, t ++ t2)

/-- The body of `chat` inside the AGENT span: initial LLM call, the optional
tool detour plus final LLM call, yielding the turn's final message.  The
message-list bookkeeping and span attributes do not influence any claim and are
not tracked. -/
def chatBody (o : ChatOracle) : Except PyError String × Trace :=
  match llmCallInitial o with
  | (Except.error e, t1) => (Except.error e, t1)
  | (Except.ok assistant_message, t1) =>
    if assistant_message.tool_calls.isEmpty then
      (Except.ok assistant_message.content, t1)
    else
      match runToolCalls assistant_message.tool_calls with
      | (Except.error e, t2) => (Except.error e, t1 ++ t2)
      | (Except.ok _, t2) =>
        match llmCallFinal o with
        | (r, t3) => (r, t1 ++ t2 ++ t3)

inductive Role where
  | system : Role
  | user : Role
  | assistant : Role
  | tool : Role
deriving DecidableEq, Repr

structure Msg where
  role : Role
  content : String
deriving DecidableEq, Repr

/-- Lines 211-217 of llm_agent.py: extend the history with the turn's
`{user, assistant}` pair, then keep only the last 6 entries. -/
def histUpdate (history : List Msg) (user_input final_message : String) : List Msg :=
  let h := history ++ [Msg.mk Role.user user_input, Msg.mk Role.assistant final_message]
  if 6 < h.length then h.drop (h.length - 6) else h

/-- LLMAgent.chat: the AGENT span wraps the whole turn; the history is updated
only when the body reaches a final message (the `try/except` around the body is
commented out in the source, so a raising body propagates and skips the
update).  Returns (result, new history, trace of the turn). -/
def chat (conversation_history : List Msg) (user_input : String) (o : ChatOracle) :
    Except PyError String × List Msg × Trace :=
  let body := chatBody o
  let t := SpanEvent.openSpan "Agent Chat" SpanKind.AGENT ::
           (body.2 ++ [SpanEvent.closeSpan "Agent Chat" (isErr body.1)])
  match body.1 with
  | Except.ok final_message =>
    (Except.ok final_message, histUpdate conversation_history user_input final_message, t)
  | Except.error e => (Except.error e, conversation_history, t)

/-! ## main.py -/

structure PyEnv where
  openai_api_key : Option String
  arize_api_key : Option String
  arize_space_id : Option String
  arize_project_name : Option String
deriving DecidableEq, Repr

/-- Observable milestones of a `main.py` run (prints condensed to one event per
branch). -/
inductive MainEvent where
  | printedMissingKeyError : MainEvent
  | printedMissingArizeNote : MainEvent
  | registeredTracerProvider : MainEvent
  | raisedOpenAIError : MainEvent
  | ranDemoQueries : MainEvent
  | enteredInteractiveLoop : MainEvent
  | printedHelp : MainEvent
  | printedUnknownArg : MainEvent
  | shutdownTracerProvider : MainEvent
deriving DecidableEq, Repr

/-- main.setup_environment: returns `False` (here `false`) without registering
anything when OPENAI_API_KEY is missing; otherwise warns about missing Arize
keys, registers the tracer provider and returns it (here `true`). -/
def setup_environment (env : PyEnv) : Bool × List MainEvent :=
  match env.openai_api_key with
  | none => (false, [MainEvent.printedMissingKeyError])
  | some _ =>
    let arizeMissing :=
      env.arize_api_key.isNone || env.arize_space_id.isNone || env.arize_project_name.isNone
    (true,
     (if arizeMissing then [MainEvent.printedMissingArizeNote] else []) ++
     [MainEvent.registeredTracerProvider])

/-- LLMAgent.__init__ as called by both modes (no api_key argument,
llm_agent.py line 50): `OpenAI(api_key=None or os.getenv("OPENAI_API_KEY"))`.
The openai v1 client raises `OpenAIError` at construction when no key can be
resolved; with a key present, construction succeeds without contacting the
backend. -/
def llmAgentInit (env : PyEnv) : Except PyError Unit :=
  match env.openai_api_key with
  | none => Except.error PyError.openaiError
  | some _ => Except.ok ()

/-- llm_agent.demonstrate_agent: opens the demo session span, constructs
`LLMAgent()` — which raises before any scripted query when the credential is
missing — then runs the five scripted chat turns.  The turns' combined outcome
depends on the backend and is supplied as `turnsOutcome`; their inner
behaviour is the business of `chat`.  (The session span, being outside every
per-turn trace, is not tracked here.) -/
def demonstrate_agent (env : PyEnv) (turnsOutcome : Except PyError Unit) :
    Except PyError Unit × List MainEvent :=
  match llmAgentInit env with
  | Except.error e => (Except.error e, [MainEvent.raisedOpenAIError])
  | Except.ok _ => (turnsOutcome, [MainEvent.ranDemoQueries])

/-- main.interactive_mode: constructs `LLMAgent()` (main.py line 60) before
the session span and the read-eval loop, so a missing credential raises before
the loop is ever entered; otherwise the loop runs with the outcome supplied as
`loopOutcome` (its per-iteration `except` clauses and exit commands are beyond
the claims). -/
def interactive_mode (env : PyEnv) (loopOutcome : Except PyError Unit) :
    Except PyError Unit × List MainEvent :=
  match llmAgentInit env with
  | Except.error e => (Except.error e, [MainEvent.raisedOpenAIError])
  | Except.ok _ => (loopOutcome, [MainEvent.enteredInteractiveLoop])

/-- main.main: runs setup (ignoring its result), dispatches on the first
command-line argument (argv here excludes the script name, so Python's
`len(sys.argv) > 1` is the non-emptiness test), then calls
`tracer_provider.shutdown()`.  A mode that raises propagates out of `main`
uncaught; a completed mode reaches the shutdown call, which raises
`AttributeError` when setup had returned `False`.  Returns the event list and
the process outcome (`Except.error` = uncaught exception = non-zero exit). -/
def main_py (env : PyEnv) (argv : List String) (modeOutcome : Except PyError Unit) :
    List MainEvent × Except PyError Unit :=
  let setup := setup_environment env
  let mode : Except PyError Unit × List MainEvent :=
    match argv with
    | [] => interactive_mode env modeOutcome
    | arg :: _ =>
      if arg = "--demo" || arg = "-d" then demonstrate_agent env modeOutcome
      else if arg = "--interactive" || arg = "-i" then interactive_mode env modeOutcome
      else if arg = "--help" || arg = "-h" then (Except.ok (), [MainEvent.printedHelp])
      else (Except.ok (), [MainEvent.printedUnknownArg])
  match mode.1 with
  | Except.error e => (setup.2 ++ mode.2, Except.error e)
  | Except.ok _ =>
    if setup.1 then (setup.2 ++ mode.2 ++ [MainEvent.shutdownTracerProvider], Except.ok ())
    else (setup.2 ++ mode.2, Except.error PyError.attributeError)

/-! ## Concrete example inputs used by witnesses and counterexamples -/

/-- A well-formed get_weather tool call, as the model would emit it. -/
def tcLondon : ToolCall :=
  ToolCall.mk "call_1" (ToolFunction.mk "get_weather" "\x7b\"location\": \"London\"\x7d")

/-- A turn in which the model requests one get_weather call and then answers. -/
def oracleLondon : ChatOracle :=
  ChatOracle.mk (ApiResult.ok (AssistantMessage.mk "" [tcLondon]))
    (ApiResult.ok "It is rainy in London.")

/-- A turn whose initial model call raises. -/
def oracleRaise : ChatOracle :=
  ChatOracle.mk (ApiResult.raise "boom") (ApiResult.ok "unused")

/-- A turn whose single tool call carries unparseable JSON arguments. -/
def oracleBadArgs : ChatOracle :=
  ChatOracle.mk
    (ApiResult.ok (AssistantMessage.mk "" [ToolCall.mk "call_9" (ToolFunction.mk "get_weather" "oops")]))
    (ApiResult.ok "unused")

/-- A one-pair conversation history. -/
def hist1 : List Msg :=
  [Msg.mk Role.user "old question", Msg.mk Role.assistant "old answer"]

/-- A full three-pair conversation history. -/
def hist6 : List Msg :=
  [Msg.mk Role.user "q1", Msg.mk Role.assistant "a1",
   Msg.mk Role.user "q2", Msg.mk Role.assistant "a2",
   Msg.mk Role.user "q3", Msg.mk Role.assistant "a3"]

/-! ## Span accounting lemmas -/

theorem spanOpens_append (a b : Trace) : spanOpens (a ++ b) = spanOpens a + spanOpens b :=
  List.countP_append _ a b

theorem spanCloses_append (a b : Trace) : spanCloses (a ++ b) = spanCloses a + spanCloses b :=
  List.countP_append _ a b

theorem spanOpens_withSpan {α : Type} (n : String) (k : SpanKind)
    (b : Except PyError α × Trace) :
    spanOpens (withSpan n k b).2 = spanOpens b.2 + 1 := by
  simp [withSpan, spanOpens, List.countP_cons, List.countP_append]

theorem spanCloses_withSpan {α : Type} (n : String) (k : SpanKind)
    (b : Except PyError α × Trace) :
    spanCloses (withSpan n k b).2 = spanCloses b.2 + 1 := by
  simp [withSpan, spanCloses, List.countP_cons, List.countP_append]

theorem withSpan_fst {α : Type} (n : String) (k : SpanKind)
    (b : Except PyError α × Trace) : (withSpan n k b).1 = b.1 := rfl

theorem get_weather_trace (location : String) :
    (get_weather location).2 =
      [SpanEvent.openSpan "Weather Tool Execution" SpanKind.TOOL,
       SpanEvent.closeSpan "Weather Tool Execution" false] := rfl

/-- The body of a tool-dispatch span either opens no span at all or exactly the
one pair that the nested get_weather execution opens and closes. -/
theorem execute_body_trace (tc : ToolCall) :
    (execute_body tc).2 = [] ∨ ∃ loc, (execute_body tc).2 = (get_weather loc).2 := by
  unfold execute_body
  cases json_loads tc.function.arguments with
  | none => exact Or.inl rfl
  | some v =>
    by_cases hn : tc.function.name = "get_weather"
    · simp only [if_pos hn]
      cases pyIndex v "location" with
      | error e => exact Or.inl rfl
      | ok jv =>
        cases jv with
        | jstr loc => exact Or.inr ⟨loc, rfl⟩
        | jnull => exact Or.inl rfl
        | jbool b => exact Or.inl rfl
        | jnum r => exact Or.inl rfl
        | jarr xs => exact Or.inl rfl
        | jobj fs => exact Or.inl rfl
    · simp only [if_neg hn]
      exact Or.inl trivial

theorem execute_balanced (tc : ToolCall) :
    spanOpens (execute_tool_call tc).2 = spanCloses (execute_tool_call tc).2 := by
  have hb : spanOpens (execute_body tc).2 = spanCloses (execute_body tc).2 := by
    rcases execute_body_trace tc with h | ⟨loc, h⟩ <;>
      simp [h, get_weather_trace, spanOpens, spanCloses, List.countP_cons]
  simp [execute_tool_call, spanOpens_withSpan, spanCloses_withSpan, hb]

/-- A successful dispatch opens one TOOL span, plus the inner span of the
weather tool when (and only when) the call was routed to get_weather. -/
theorem execute_ok_opens (tc : ToolCall) (r : String)
    (h : (execute_tool_call tc).1 = Except.ok r) :
    spanOpens (execute_tool_call tc).2 =
      1 + (if tc.function.name = "get_weather" then 1 else 0) := by
  rw [execute_tool_call, withSpan_fst] at h
  rw [execute_tool_call, spanOpens_withSpan]
  revert h
  unfold execute_body
  cases json_loads tc.function.arguments with
  | none => intro h; exact absurd h (by simp)
  | some v =>
    by_cases hn : tc.function.name = "get_weather"
    · simp only [if_pos hn]
      cases pyIndex v "location" with
      | error e => intro h; exact absurd h (by simp)
      | ok jv =>
        cases jv with
        | jstr loc =>
          intro _
          simp [get_weather_trace, spanOpens, List.countP_cons, hn]
        | jnull => intro h; exact absurd h (by simp)
        | jbool b => intro h; exact absurd h (by simp)
        | jnum rw => intro h; exact absurd h (by simp)
        | jarr xs => intro h; exact absurd h (by simp)
        | jobj fs => intro h; exact absurd h (by simp)
    · simp only [if_neg hn]
      intro _
      simp [spanOpens, hn]

theorem runToolCalls_balanced (tcs : List ToolCall) :
    spanOpens (runToolCalls tcs).2 = spanCloses (runToolCalls tcs).2 := by
  induction tcs with
  | nil => rfl
  | cons tc rest ih =>
    have hb := execute_balanced tc
    rcases hx : execute_tool_call tc with ⟨r, t⟩
    rw [hx] at hb
    cases r with
    | error e => simp [runToolCalls, hx, hb]
    | ok tool_result =>
      cases hj : json_loads tool_result with
      | none => simp [runToolCalls, hx, hj, hb]
      | some j =>
        cases hp : pyIndex j "location" with
        | error e => simp [runToolCalls, hx, hj, hp, hb]
        | ok jv =>
          rcases hr : runToolCalls rest with ⟨r2, t2⟩
          rw [hr] at ih
          simp [runToolCalls, hx, hj, hp, hr, spanOpens_append, spanCloses_append, hb, ih]

/-- A tool loop that completes without raising opens one dispatch span per
call plus one inner weather span per get_weather call. -/
theorem runToolCalls_ok_opens (tcs : List ToolCall)
    (h : isErr (runToolCalls tcs).1 = false) :
    spanOpens (runToolCalls tcs).2 =
      tcs.length + tcs.countP (fun tc => tc.function.name == "get_weather") := by
  induction tcs with
  | nil => rfl
  | cons tc rest ih =>
    rcases hx : execute_tool_call tc with ⟨r, t⟩
    cases r with
    | error e => rw [runToolCalls, hx] at h; exact absurd h (by simp [isErr])
    | ok tool_result =>
      have hopens : spanOpens t = 1 + (if tc.function.name = "get_weather" then 1 else 0) := by
        have := execute_ok_opens tc tool_result (by rw [hx])
        rwa [hx] at this
      cases hj : json_loads tool_result with
      | none =>
        simp only [runToolCalls, hx, hj, isErr] at h
        exact absurd h (by decide)
      | some j =>
        cases hp : pyIndex j "location" with
        | error e =>
          simp only [runToolCalls, hx, hj, hp, isErr] at h
          exact absurd h (by decide)
        | ok jv =>
          rcases hr : runToolCalls rest with ⟨r2, t2⟩
          simp only [runToolCalls, hx, hj, hp, hr] at h
          rw [hr] at ih
          have ih2 : spanOpens t2 =
              rest.length + rest.countP (fun tc => tc.function.name == "get_weather") := ih h
          simp only [runToolCalls, hx, hj, hp, hr, List.countP_cons, List.length_cons]
          simp only [spanOpens_append, hopens, ih2]
          by_cases hgw : tc.function.name = "get_weather" <;> simp [hgw] <;> omega

theorem llmCallInitial_counts (o : ChatOracle) :
    spanOpens (llmCallInitial o).2 = 1 ∧ spanCloses (llmCallInitial o).2 = 1 := by
  cases h : o.initialResponse <;>
    simp [llmCallInitial, h, withSpan, spanOpens, spanCloses, List.countP_cons]

theorem llmCallFinal_counts (o : ChatOracle) :
    spanOpens (llmCallFinal o).2 = 1 ∧ spanCloses (llmCallFinal o).2 = 1 := by
  cases h : o.finalResponse <;>
    simp [llmCallFinal, h, withSpan, spanOpens, spanCloses, List.countP_cons]

theorem chatBody_balanced (o : ChatOracle) :
    spanOpens (chatBody o).2 = spanCloses (chatBody o).2 := by
  have h1 := llmCallInitial_counts o
  rcases hi : llmCallInitial o with ⟨r1, t1⟩
  rw [hi] at h1
  cases r1 with
  | error e => simp [chatBody, hi, h1.1, h1.2]
  | ok am =>
    by_cases hemp : am.tool_calls.isEmpty
    · simp [chatBody, hi, hemp, h1.1, h1.2]
    · have h2 := runToolCalls_balanced am.tool_calls
      rcases ht : runToolCalls am.tool_calls with ⟨r2, t2⟩
      rw [ht] at h2
      cases r2 with
      | error e =>
        simp [chatBody, hi, hemp, ht, spanOpens_append, spanCloses_append, h1.1, h1.2, h2]
      | ok u =>
        have h3 := llmCallFinal_counts o
        rcases hf : llmCallFinal o with ⟨r3, t3⟩
        rw [hf] at h3
        simp [chatBody, hi, hemp, ht, hf, spanOpens_append, spanCloses_append,
              h1.1, h1.2, h2, h3.1, h3.2]

theorem chat_fst (h : List Msg) (u : String) (o : ChatOracle) :
    (chat h u o).1 = (chatBody o).1 := by
  unfold chat
  rcases hb : chatBody o with ⟨r, t⟩
  cases r <;> simp [hb]

theorem chat_trace (h : List Msg) (u : String) (o : ChatOracle) :
    (chat h u o).2.2 =
      SpanEvent.openSpan "Agent Chat" SpanKind.AGENT ::
        ((chatBody o).2 ++ [SpanEvent.closeSpan "Agent Chat" (isErr (chatBody o).1)]) := by
  unfold chat
  rcases hb : chatBody o with ⟨r, t⟩
  cases r <;> simp [hb]

theorem chat_hist_ok (h : List Msg) (u : String) (o : ChatOracle) (m : String)
    (hm : (chatBody o).1 = Except.ok m) :
    (chat h u o).2.1 = histUpdate h u m := by
  unfold chat
  rcases hb : chatBody o with ⟨r, t⟩
  rw [hb] at hm
  cases r with
  | ok m2 => cases hm; simp [hb]
  | error e => exact absurd hm (by simp)

theorem chat_hist_err (h : List Msg) (u : String) (o : ChatOracle) (e : PyError)
    (he : (chatBody o).1 = Except.error e) :
    (chat h u o).2.1 = h := by
  unfold chat
  rcases hb : chatBody o with ⟨r, t⟩
  rw [hb] at he
  cases r with
  | ok m2 => exact absurd he (by simp)
  | error e2 => simp [hb]

theorem histUpdate_length_le (h : List Msg) (u a : String) (hlen : h.length ≤ 6) :
    (histUpdate h u a).length ≤ 6 := by
  simp only [histUpdate]
  split
  · rename_i hgt
    simp only [List.length_drop, List.length_append, List.length_cons, List.length_nil] at hgt ⊢
    omega
  · rename_i hle
    simp only [List.length_append, List.length_cons, List.length_nil] at hle ⊢
    omega

/-! ## Claim theorems -/

set_option maxRecDepth 80000

/-- Claim C1, counterexample: for a turn carrying N = 1 tool call the claim
predicts exactly 2 + 1 + 1 = 4 opened spans, but a single get_weather call
opens 5, because `get_weather` itself opens a further inner
"Weather Tool Execution" span inside the dispatch TOOL span. -/
theorem c1_claim_counterexample :
    spanOpens (chat [] "What is the weather in London?" oracleLondon).2.2 = 5 ∧
    spanOpens (chat [] "What is the weather in London?" oracleLondon).2.2 ≠ 2 + 1 + 1 := by
  constructor
  · rfl
  · decide

/-- Claim C1, amended: a turn whose initial response carries zero tool calls
opens exactly 2 spans (AGENT + initial LLM); a turn that completes
successfully while carrying N ≥ 1 tool calls opens exactly 2 + N + G + 1
spans, where G is the number of those calls dispatched to get_weather — each
such call opens the dispatch TOOL span and one inner weather TOOL span. -/
theorem c1_span_count_amended (h : List Msg) (u : String) (o : ChatOracle)
    (am : AssistantMessage) (hinit : o.initialResponse = ApiResult.ok am)
    (hok : isErr (chat h u o).1 = false) :
    spanOpens (chat h u o).2.2 =
      if am.tool_calls.isEmpty then 2
      else 2 + am.tool_calls.length +
        am.tool_calls.countP (fun tc => tc.function.name == "get_weather") + 1 := by
  have hi : llmCallInitial o =
      (Except.ok am,
       [SpanEvent.openSpan "LLM Call - Initial" SpanKind.LLM,
        SpanEvent.closeSpan "LLM Call - Initial" false]) := by
    simp [llmCallInitial, hinit, withSpan, isErr]
  rw [chat_fst] at hok
  by_cases hemp : am.tool_calls.isEmpty
  · have hb : chatBody o =
        (Except.ok am.content,
         [SpanEvent.openSpan "LLM Call - Initial" SpanKind.LLM,
          SpanEvent.closeSpan "LLM Call - Initial" false]) := by
      simp [chatBody, hi, hemp]
    rw [chat_trace, hb]
    simp [hemp, spanOpens, List.countP_cons, List.countP_append]
  · rcases ht : runToolCalls am.tool_calls with ⟨r2, t2⟩
    cases r2 with
    | error e =>
      have hberr : (chatBody o).1 = Except.error e := by
        simp [chatBody, hi, hemp, ht]
      rw [hberr] at hok
      exact absurd hok (by simp [isErr])
    | ok uu =>
      rcases hf : llmCallFinal o with ⟨r3, t3⟩
      have h3 := llmCallFinal_counts o
      rw [hf] at h3
      have hro : isErr (runToolCalls am.tool_calls).1 = false := by rw [ht]; rfl
      have h2 : spanOpens t2 =
          am.tool_calls.length +
            am.tool_calls.countP (fun tc => tc.function.name == "get_weather") := by
        have := runToolCalls_ok_opens am.tool_calls hro
        rwa [ht] at this
      have hb : chatBody o =
          (r3,
           [SpanEvent.openSpan "LLM Call - Initial" SpanKind.LLM,
            SpanEvent.closeSpan "LLM Call - Initial" false] ++ t2 ++ t3) := by
        simp [chatBody, hi, hemp, ht, hf]
      rw [chat_trace, hb]
      simp [hemp, spanOpens, List.countP_cons, List.countP_append]
      simp only [spanOpens] at h2 h3
      rw [h2, h3.1]
      omega

/-- Claim C1, witness for the amended theorem: the London turn completes
successfully with one get_weather tool call and opens 2 + 1 + 1 + 1 = 5
spans. -/
theorem c1_span_count_witness :
    spanOpens (chat [] "What is the weather in London?" oracleLondon).2.2 = 5 := by
  have h := c1_span_count_amended [] "What is the weather in London?" oracleLondon
    (AssistantMessage.mk "" [tcLondon]) rfl rfl
  simpa using h

/-- Claim C2: every span opened during a turn is closed exactly once on every
exit path: for every conversation history, user input and backend oracle
(including raising model calls and failing tool dispatches), the turn's trace
contains as many span-close events as span-open events. -/
theorem c2_span_balance (h : List Msg) (u : String) (o : ChatOracle) :
    spanOpens (chat h u o).2.2 = spanCloses (chat h u o).2.2 := by
  rw [chat_trace]
  have hb := chatBody_balanced o
  simp only [spanOpens, spanCloses, List.countP_cons, List.countP_append] at hb ⊢
  simp [hb]

/-- Claim C3, counterexample: when the initial model call raises, `chat` does
not return an apology string: the `try/except` in the source is commented out,
so the exception propagates to the caller unchanged. -/
theorem c3_claim_counterexample :
    (chat [] "hello" oracleRaise).1 = Except.error (PyError.apiError "boom") := rfl

/-- Claim C3, amended: an exception raised during a model call or tool
dispatch is NOT caught by `chat`: a raising initial call surfaces as that very
exception in chat's result, and whenever the turn body raises, chat propagates
the same exception to its caller and leaves the conversation history
untouched (no apology string is produced). -/
theorem c3_propagation_amended (h : List Msg) (u : String) (o : ChatOracle) :
    (∀ m, o.initialResponse = ApiResult.raise m →
        (chat h u o).1 = Except.error (PyError.apiError m)) ∧
    (∀ e, (chatBody o).1 = Except.error e →
        (chat h u o).1 = Except.error e ∧ (chat h u o).2.1 = h) := by
  constructor
  · intro m hm
    rw [chat_fst]
    simp [chatBody, llmCallInitial, hm, withSpan]
  · intro e he
    exact ⟨by rw [chat_fst, he], chat_hist_err h u o e he⟩

/-- Claim C3, witness for the amended theorem: a turn whose initial call
raises "boom" propagates `apiError "boom"` and keeps the one-pair history. -/
theorem c3_propagation_witness :
    (chat hist1 "hello" oracleRaise).1 = Except.error (PyError.apiError "boom") ∧
    (chat hist1 "hello" oracleRaise).2.1 = hist1 :=
  (c3_propagation_amended hist1 "hello" oracleRaise).2 (PyError.apiError "boom") rfl

/-- Claim C4: if OPENAI_API_KEY is missing, the process exits with a non-zero
status (an uncaught exception) before any turn runs, on every command line and
whatever the mode body would have done: in demo and interactive modes the
`LLMAgent()` construction raises `OpenAIError` before the first query or loop
iteration, and in the help/unknown-argument modes — where no turn exists — the
trailing `tracer_provider.shutdown()` on the `False` setup result raises
`AttributeError`.  Neither the demo queries nor the interactive loop are ever
reached. -/
theorem c4_missing_key_fatal (env : PyEnv) (argv : List String)
    (mo : Except PyError Unit) (hkey : env.openai_api_key = none) :
    isErr (main_py env argv mo).2 = true ∧
    MainEvent.ranDemoQueries ∉ (main_py env argv mo).1 ∧
    MainEvent.enteredInteractiveLoop ∉ (main_py env argv mo).1 := by
  have hinit : llmAgentInit env = Except.error PyError.openaiError := by
    simp [llmAgentInit, hkey]
  have hsetup : setup_environment env = (false, [MainEvent.printedMissingKeyError]) := by
    simp [setup_environment, hkey]
  unfold main_py
  cases argv with
  | nil => simp [interactive_mode, hinit, hsetup, isErr]
  | cons arg rest =>
    by_cases h1 : arg = "--demo" || arg = "-d"
    · simp [h1, demonstrate_agent, hinit, hsetup, isErr]
    · by_cases h2 : arg = "--interactive" || arg = "-i"
      · simp [h1, h2, interactive_mode, hinit, hsetup, isErr]
      · by_cases h3 : arg = "--help" || arg = "-h"
        · simp [h1, h2, h3, hsetup, isErr]
        · simp [h1, h2, h3, hsetup, isErr]

/-- Claim C4, witness: with no key and `--demo`, the run ends in an uncaught
exception and the demo queries are never executed. -/
theorem c4_missing_key_fatal_witness :
    isErr (main_py (PyEnv.mk none none none none) ["--demo"] (Except.ok ())).2 = true ∧
    MainEvent.ranDemoQueries ∉
      (main_py (PyEnv.mk none none none none) ["--demo"] (Except.ok ())).1 ∧
    MainEvent.enteredInteractiveLoop ∉
      (main_py (PyEnv.mk none none none none) ["--demo"] (Except.ok ())).1 :=
  c4_missing_key_fatal (PyEnv.mk none none none none) ["--demo"] (Except.ok ()) rfl

/-- Claim C5: get_weather is a pure function (hence deterministic and total);
whenever the lowercased, stripped input is a key of the static table it
returns exactly that table entry serialised as indented JSON text, and for
every other input it returns the serialised fallback record, whose `location`
field is the original untrimmed, original-case input. -/
theorem c5_get_weather_spec (location : String) :
    (∀ k r, pyStrip (pyLower location) = k → tableGet weather_data k = some r →
        (get_weather location).1 = dumps_indent2 (weatherRecordFields r)) ∧
    (tableGet weather_data (pyStrip (pyLower location)) = none →
        (get_weather location).1 = dumps_indent2 (weatherRecordFields (fallbackRecord location)) ∧
        (fallbackRecord location).location = location) := by
  constructor
  · intro k r hk hr
    simp [get_weather, hk, hr]
  · intro hnone
    exact ⟨by simp [get_weather, hnone], rfl⟩

/-- Claim C5, witness: " LONDON " normalises to the table key "london" and
yields the stored London record; "Paris" misses the table and yields the
fallback record echoing "Paris". -/
theorem c5_get_weather_witness :
    (get_weather " LONDON ").1 =
      dumps_indent2 (weatherRecordFields
        { location := "London, UK"
          temperature := "59°F (15°C)"
          condition := "Light rain"
          humidity := "78%"
          wind := "15 mph W"
          forecast := "Typical London weather with light showers" }) ∧
    ((get_weather "Paris").1 =
        dumps_indent2 (weatherRecordFields (fallbackRecord "Paris")) ∧
      (fallbackRecord "Paris").location = "Paris") :=
  ⟨(c5_get_weather_spec " LONDON ").1 "london"
      { location := "London, UK"
        temperature := "59°F (15°C)"
        condition := "Light rain"
        humidity := "78%"
        wind := "15 mph W"
        forecast := "Typical London weather with light showers" } rfl rfl,
   (c5_get_weather_spec "Paris").2 rfl⟩

/-- Claim C6: a tool call whose arguments parse as JSON but whose function
name is not get_weather never raises: dispatch returns exactly the sentinel
"Unknown function: {name}", opening and closing its one TOOL span cleanly. -/
theorem c6_unknown_tool (tc : ToolCall) (v : Json)
    (hparse : json_loads tc.function.arguments = some v)
    (hname : tc.function.name ≠ "get_weather") :
    execute_tool_call tc =
      (Except.ok ("Unknown function: " ++ tc.function.name),
       [SpanEvent.openSpan ("Tool: " ++ tc.function.name) SpanKind.TOOL,
        SpanEvent.closeSpan ("Tool: " ++ tc.function.name) false]) := by
  simp [execute_tool_call, execute_body, withSpan, hparse, hname, isErr]

/-- Claim C6, witness: an unknown tool "foo" with arguments "{}" yields the
sentinel without raising. -/
theorem c6_unknown_tool_witness :
    execute_tool_call (ToolCall.mk "call_7" (ToolFunction.mk "foo" "\x7b\x7d")) =
      (Except.ok ("Unknown function: " ++ "foo"),
       [SpanEvent.openSpan ("Tool: " ++ "foo") SpanKind.TOOL,
        SpanEvent.closeSpan ("Tool: " ++ "foo") false]) :=
  c6_unknown_tool (ToolCall.mk "call_7" (ToolFunction.mk "foo" "\x7b\x7d"))
    (Json.jobj []) rfl (by decide)

/-- Claim C7: a tool call whose raw arguments are not valid JSON raises the
argument-parse error (Python's `json.JSONDecodeError`, the spec's
ToolArgumentError), and exactly one TOOL span is opened and closed for the
call, its close event recording the failure. -/
theorem c7_invalid_json (tc : ToolCall)
    (hparse : json_loads tc.function.arguments = none) :
    execute_tool_call tc =
      (Except.error PyError.jsonDecodeError,
       [SpanEvent.openSpan ("Tool: " ++ tc.function.name) SpanKind.TOOL,
        SpanEvent.closeSpan ("Tool: " ++ tc.function.name) true]) := by
  simp [execute_tool_call, execute_body, withSpan, hparse, isErr]

/-- Claim C7, witness: the argument text "oops" is not JSON; dispatch raises
and the one TOOL span closes errored. -/
theorem c7_invalid_json_witness :
    execute_tool_call (ToolCall.mk "call_8" (ToolFunction.mk "get_weather" "oops")) =
      (Except.error PyError.jsonDecodeError,
       [SpanEvent.openSpan ("Tool: " ++ "get_weather") SpanKind.TOOL,
        SpanEvent.closeSpan ("Tool: " ++ "get_weather") true]) :=
  c7_invalid_json (ToolCall.mk "call_8" (ToolFunction.mk "get_weather" "oops")) rfl

/-- Claim C8: the conversation history never exceeds 6 entries: a turn started
at ≤ 6 entries ends at ≤ 6 entries (so any sequence of turns from the empty
history stays within the cap), and appending a 4th pair to a full 3-pair
history evicts the oldest pair while the new pair becomes the most recent
entries. -/
theorem c8_history_cap :
    (∀ (h : List Msg) (u : String) (o : ChatOracle),
        h.length ≤ 6 → (chat h u o).2.1.length ≤ 6) ∧
    (∀ (h : List Msg) (u a : String), h.length = 6 →
        histUpdate h u a =
          h.drop 2 ++ [Msg.mk Role.user u, Msg.mk Role.assistant a]) := by
  constructor
  · intro h u o hlen
    rcases hb : (chatBody o).1 with e | m
    · rw [chat_hist_err h u o e hb]; exact hlen
    · rw [chat_hist_ok h u o m hb]; exact histUpdate_length_le h u _ hlen
  · intro h u a hlen
    have hgt : 6 < (h ++ [Msg.mk Role.user u, Msg.mk Role.assistant a]).length := by
      simp [List.length_append, hlen]
    simp only [histUpdate, if_pos hgt]
    rw [List.length_append, hlen]
    simp [List.drop_append_of_le_length (by omega : 2 ≤ h.length)]

/-- Claim C8, witness: a full three-pair history plus a fourth pair drops the
oldest pair and ends with the new pair; a turn from an in-cap history stays in
cap. -/
theorem c8_history_cap_witness :
    (chat hist6 "What is the weather in London?" oracleLondon).2.1.length ≤ 6 ∧
    histUpdate hist6 "q4" "a4" =
      hist6.drop 2 ++ [Msg.mk Role.user "q4", Msg.mk Role.assistant "a4"] :=
  ⟨c8_history_cap.1 hist6 "What is the weather in London?" oracleLondon (by decide),
   c8_history_cap.2 hist6 "q4" "a4" rfl⟩

/-- Claim C9: the history is only committed by a successful turn: if `chat`
ends in an exception (from a model call or tool dispatch), the conversation
history after the turn equals the history before it. -/
theorem c9_history_unchanged_on_error (h : List Msg) (u : String) (o : ChatOracle)
    (e : PyError) (herr : (chat h u o).1 = Except.error e) :
    (chat h u o).2.1 = h := by
  rw [chat_fst] at herr
  exact chat_hist_err h u o e herr

/-- Claim C9, witness: a turn that fails in tool dispatch (unparseable
arguments) leaves the one-pair history exactly as it was. -/
theorem c9_history_unchanged_witness :
    (chat hist1 "What is the weather?" oracleBadArgs).2.1 = hist1 :=
  c9_history_unchanged_on_error hist1 "What is the weather?" oracleBadArgs
    PyError.jsonDecodeError rfl

/-- Claim C10: a get_weather call whose arguments parse as a JSON object
without a "location" key raises `KeyError` out of dispatch (after opening and
closing its TOOL span) instead of returning any result: dispatch is not total
for registered tools even on syntactically valid JSON. -/
theorem c10_missing_location_key (tc : ToolCall) (fields : List (String × Json))
    (hparse : json_loads tc.function.arguments = some (Json.jobj fields))
    (hmiss : objGet fields "location" = none)
    (hname : tc.function.name = "get_weather") :
    execute_tool_call tc =
      (Except.error (PyError.keyError "location"),
       [SpanEvent.openSpan ("Tool: " ++ tc.function.name) SpanKind.TOOL,
        SpanEvent.closeSpan ("Tool: " ++ tc.function.name) true]) := by
  simp [execute_tool_call, execute_body, withSpan, hparse, hname, pyIndex, hmiss, isErr]

/-- Claim C10, witness: get_weather called with the empty JSON object "{}"
raises `KeyError "location"`. -/
theorem c10_missing_location_key_witness :
    execute_tool_call (ToolCall.mk "call_2" (ToolFunction.mk "get_weather" "\x7b\x7d")) =
      (Except.error (PyError.keyError "location"),
       [SpanEvent.openSpan ("Tool: " ++ "get_weather") SpanKind.TOOL,
        SpanEvent.closeSpan ("Tool: " ++ "get_weather") true]) :=
  c10_missing_location_key (ToolCall.mk "call_2" (ToolFunction.mk "get_weather" "\x7b\x7d"))
    [] rfl rfl rfl

end AgentDemo
